import Mathlib

/-!
Shallow embedding of `src/downloadmanager.py` (class `Download`, lines 10-89).

The `Download` class owns four fields (`_url`, `_size`, `_downloaded`,
`_status`), a constructor that immediately spawns a background transfer
task running `_run`, the controller operations `pause`/`resume`/`cancel`,
the derived accessor `progress`, and the `Status` enum.  Python integers
are modelled as `Int` (they are unbounded), byte strings as `List Nat`,
and the destination file as a list of bytes together with a write cursor.
The network and the file system are passed in explicitly as an
environment, so the transfer task `_run` becomes a total function from
(engine state, disk contents, environment) to (engine state, disk
contents, fault flag, issued request).
-/

/-- Download.Status (lines 84-89).  The five lifecycle states. -/
inductive Status
  | DOWNLOADING
  | PAUSED
  | COMPLETE
  | CANCELLED
  | ERROR
deriving DecidableEq

/-- A Python value as produced by the enum member definitions: either a plain
string or a tuple of strings.  Lines 85-88 end in a trailing comma, which in
Python makes the member value a one-element tuple; line 89 does not. -/
inductive PyValue
  | str : String → PyValue
  | tuple : List String → PyValue
deriving DecidableEq

/-- The `.value` of each Status member, exactly as the source writes it
(lines 85-89): `DOWNLOADING = "Downloading",` gives the 1-tuple
`("Downloading",)` because of the trailing comma, and likewise for PAUSED,
COMPLETE and CANCELLED; `ERROR = "Error"` (no trailing comma) gives the
plain string. -/
def Status.value : Status → PyValue
  | Status.DOWNLOADING => PyValue.tuple ["Downloading"]
  | Status.PAUSED => PyValue.tuple ["Paused"]
  | Status.COMPLETE => PyValue.tuple ["Complete"]
  | Status.CANCELLED => PyValue.tuple ["Cancelled"]
  | Status.ERROR => PyValue.str "Error"

/-- The mutable fields of a `Download` instance (lines 15-18):
`_url`, `_size` (-1 sentinel until the first content-length header is
stored), `_downloaded` (bytes counter), `_status`. -/
structure Download where
  url : String
  size : Int
  downloaded : Int
  status : Status
deriving DecidableEq

/-- Line 11: `MAX_CHUNK_SIZE = 1024`. -/
def Download.MAX_CHUNK_SIZE : Int := 1024

/-- Constructor `__init__` (lines 13-19): url stored, size -1, downloaded 0,
status DOWNLOADING.  (`self._download()` then spawns the task running
`_run`, modelled separately by `runTask`.) -/
def Download.init (url : String) : Download :=
  { url := url, size := -1, downloaded := 0, status := Status.DOWNLOADING }

/-- `pause` (lines 41-42): unconditionally sets status to PAUSED. -/
def Download.pause (d : Download) : Download :=
  { d with status := Status.PAUSED }

/-- `resume` (lines 44-46): unconditionally sets status to DOWNLOADING and
spawns a new task (`self._download()`); the new task is modelled by applying
`runTask` to the resulting state. -/
def Download.resume (d : Download) : Download :=
  { d with status := Status.DOWNLOADING }

/-- `cancel` (lines 48-49): unconditionally sets status to CANCELLED. -/
def Download.cancel (d : Download) : Download :=
  { d with status := Status.CANCELLED }

/-- `_error` (lines 51-52): sets status to ERROR. -/
def Download.error (d : Download) : Download :=
  { d with status := Status.ERROR }

/-- `progress` (lines 29-31): `int(self._downloaded / self.size * 100)`.
There is no guard on `self.size`: for `size = 0` Python raises
ZeroDivisionError (modelled as `none`); otherwise the value is computed,
whatever its sign.  Python's `/` is exact here up to float rounding and
`int` truncates toward zero, so the result is modelled exactly as
truncating integer division of `downloaded * 100` by `size` (`Int.tdiv`
truncates toward zero, like Python's `int(...)` applied to the quotient). -/
def Download.progress (d : Download) : Option Int :=
  if d.size = 0 then none
  else some (Int.tdiv (d.downloaded * 100) d.size)

/-- Lines 59-62: `content_length = int(response.headers["content-length"])`;
`if self._size == -1: self._size = content_length`.  The size is stored only
when it is still the -1 sentinel. -/
def Download.setSize (d : Download) (contentLength : Int) : Download :=
  if d.size = -1 then { d with size := contentLength } else d

/-- Lines 79-80: after the loop, `if self._status == DOWNLOADING:
self._status = COMPLETE`; any other status is left untouched. -/
def Download.finishTask (d : Download) : Download :=
  if d.status = Status.DOWNLOADING then { d with status := Status.COMPLETE } else d

/-- Lines 68-70: `chunk_size = self._size - self._downloaded;
if chunk_size > MAX_CHUNK_SIZE: chunk_size = MAX_CHUNK_SIZE`. -/
def chunkSize (size downloaded : Int) : Int :=
  let c := size - downloaded
  if c > Download.MAX_CHUNK_SIZE then Download.MAX_CHUNK_SIZE else c

/-- An open destination file: its byte contents and the write cursor. -/
structure File where
  data : List Nat
  cursor : Nat
deriving DecidableEq

/-- Overwrite `chunk` into `data` starting at byte offset `pos`.  If `pos`
is past the end of `data` the gap is zero-filled, which is what reading a
sparse file produced by seek-past-end-then-write yields. -/
def writeBytes (data : List Nat) (pos : Nat) (chunk : List Nat) : List Nat :=
  (data.take pos ++ List.replicate (pos - data.length) 0) ++ chunk ++ data.drop (pos + chunk.length)

/-- Line 75: `file.write(chunk)` writes at the cursor and advances it. -/
def File.write (f : File) (chunk : List Nat) : File :=
  { data := writeBytes f.data f.cursor chunk, cursor := f.cursor + chunk.length }

/-- Line 65: `open(filename, 'wb')`.  Mode 'wb' truncates an existing file
to zero length; the previous disk contents are discarded. -/
def truncateWb (_disk : List Nat) : List Nat := []

/-- Lines 65-66: open the destination with mode 'wb' (truncating) and
`file.seek(self._downloaded)`. -/
def openSeek (d : Download) (disk : List Nat) : File :=
  { data := truncateWb disk, cursor := d.downloaded.toNat }

/-- An outgoing HTTP request: url plus header list. -/
structure Request where
  url : String
  headers : List (String × String)
deriving DecidableEq

/-- Line 56: `request = Request(self._url)`. -/
def newRequest (url : String) : Request :=
  { url := url, headers := [] }

/-- Line 57: `request.add_header(key, value)`. -/
def Request.addHeader (r : Request) (k v : String) : Request :=
  { url := r.url, headers := r.headers ++ [(k, v)] }

/-- Lines 56-57: the request built at the start of `_run`:
`Request(self._url)` with header `Range: bytes=<self._downloaded>-`. -/
def runRequest (d : Download) : Request :=
  (newRequest d.url).addHeader "Range" ("bytes=" ++ toString d.downloaded ++ "-")

/-- Where an exception is raised inside the try of `_run` (lines 55-78):
while building/issuing the request (line 56-58), while parsing the
content-length header (line 59), or during loop iteration `k` (a read or
write fault, lines 72-75). -/
inductive FaultPoint
  | request
  | headerParse
  | loop : Nat → FaultPoint
deriving DecidableEq

/-- The environment one execution of `_run` runs against: the parsed
content-length of the response, the remaining response body, a schedule
giving, for each `response.read` call, an optional externally forced status
change happening just before that loop iteration (a concurrent
`pause`/`resume`/`cancel`) and the number of bytes the stream is willing to
deliver to that read, and an optional injected fault. -/
structure Env where
  contentLength : Int
  body : List Nat
  schedule : List (Option Status × Nat)
  fault : Option FaultPoint
deriving DecidableEq

/-- Apply an externally forced status change (the controller writing
`self._status` concurrently), if any. -/
def applyExt (d : Download) : Option Status → Download
  | none => d
  | some s => { d with status := s }

/-- The while loop of `_run` (lines 67-77), at loop-iteration granularity.
Each schedule entry drives one pass: an optional concurrent status write is
applied, then the guard `self._status == DOWNLOADING` is checked; then,
unless the injected fault countdown hits this iteration (result flag true =
exception escaped the loop), the chunk size is computed (lines 68-70),
`response.read(chunk_size)` returns at most `chunk_size` bytes further
capped by what the stream delivers (line 72), an empty chunk breaks the
loop (lines 73-74), otherwise the chunk is written at the cursor (line 75)
and the counter advances by `chunk_size` — the requested size, not the
number of bytes actually read (line 77).  An exhausted schedule means the
stream is at end: the next read returns no bytes and the loop breaks.  Read
amounts are non-negative in every execution of the source reaching the
loop with a non-negative stored size; `Int.toNat` is exact there. -/
def runLoop : Download → File → List Nat → List (Option Status × Nat) → Option Nat → Download × File × Bool
  | d, f, _, [], _ => (d, f, false)
  | d0, f, body, (ext, cap) :: rest, fault =>
    let d := applyExt d0 ext
    if d.status = Status.DOWNLOADING then
      if fault = some 0 then (d, f, true)
      else
        let amt := chunkSize d.size d.downloaded
        let chunk := body.take (min amt.toNat cap)
        if chunk = [] then (d, f, false)
        else
          runLoop { d with downloaded := d.downloaded + amt } (f.write chunk)
            (body.drop chunk.length) rest (fault.map Nat.pred)
    else (d, f, false)

/-- The outcome of one execution of the transfer task `_run`: final engine
state, final disk contents, whether an exception was raised (and absorbed
by the bare `except` into ERROR), and the request the task issued. -/
structure RunResult where
  engine : Download
  disk : List Nat
  faulted : Bool
  issued : Request
deriving DecidableEq

/-- The body of the try in `_run` after the request succeeded (lines
59-80): store the content length if the size is unknown, open the
destination with 'wb' (truncating) and seek, run the loop, then either the
except handler (`self._error()`, line 82) if the loop raised, or the
epilogue (lines 79-80). -/
def runBody (d0 : Download) (disk : List Nat) (env : Env) (lf : Option Nat) : RunResult :=
  match runLoop (d0.setSize env.contentLength) (openSeek (d0.setSize env.contentLength) disk) env.body env.schedule lf with
  | (d2, f2, true) => { engine := d2.error, disk := f2.data, faulted := true, issued := runRequest d0 }
  | (d2, f2, false) => { engine := d2.finishTask, disk := f2.data, faulted := false, issued := runRequest d0 }

/-- `_run` (lines 54-82) as a total function: every exception raised inside
the try is absorbed by the bare `except:` (line 81) into `self._error()`,
so the task never propagates a fault to its creator — which is why the
result type is a plain `RunResult` and not an exception monad.  A fault at
the request or at header parsing leaves the disk and the size untouched. -/
def runTask (d0 : Download) (disk : List Nat) (env : Env) : RunResult :=
  match env.fault with
  | some FaultPoint.request =>
      { engine := d0.error, disk := disk, faulted := true, issued := runRequest d0 }
  | some FaultPoint.headerParse =>
      { engine := d0.error, disk := disk, faulted := true, issued := runRequest d0 }
  | some (FaultPoint.loop k) => runBody d0 disk env (some k)
  | none => runBody d0 disk env none

/-- One atomic event in the life of an engine, for reasoning about
arbitrary interleavings of controller calls with the transfer task(s), at
loop-iteration granularity: the three controller operations, the internal
error transition, a task storing the response's content length (lines
59-62), one loop iteration in which the stream delivers up to `cap` bytes
(lines 67-77; `cap` also accounts for how many bytes remain in the body),
and a task running its epilogue (lines 79-80). -/
inductive Evt
  | pause
  | resume
  | cancel
  | fault
  | headers : Int → Evt
  | iter : Nat → Evt
  | finish
deriving DecidableEq

/-- The state transition of one `Evt`.  `iter` mirrors the loop body of
`runLoop` exactly on the engine fields: the file write (line 75) does not
touch the counters, so it is elided here; a delivered chunk of 0 bytes is
the `break` (lines 73-74), otherwise the counter advances by the requested
chunk size (line 77). -/
def step (d : Download) : Evt → Download
  | Evt.pause => d.pause
  | Evt.resume => d.resume
  | Evt.cancel => d.cancel
  | Evt.fault => d.error
  | Evt.headers cl => d.setSize cl
  | Evt.finish => d.finishTask
  | Evt.iter cap =>
    if d.status = Status.DOWNLOADING then
      if min (chunkSize d.size d.downloaded).toNat cap = 0 then d
      else { d with downloaded := d.downloaded + chunkSize d.size d.downloaded }
    else d

/-- Run a sequence of events. -/
def exec (d : Download) (tr : List Evt) : Download :=
  tr.foldl step d

/-- A trace is well formed when every observed content-length is
non-negative — what any valid HTTP response guarantees. -/
def wfb : List Evt → Bool
  | [] => true
  | Evt.headers cl :: tr => if 0 ≤ cl then wfb tr else false
  | _ :: tr => wfb tr

/-- The engine-state invariant maintained by every event: the counter is
non-negative, it is zero while the size is still the -1 sentinel, and once
the size is known (set from a non-negative content length) the counter
never exceeds it. -/
def EngineInv (d : Download) : Prop :=
  0 ≤ d.downloaded ∧ (d.size = -1 → d.downloaded = 0) ∧
    (d.size ≠ -1 → 0 ≤ d.size ∧ d.downloaded ≤ d.size)

/-- The file write preserves all existing bytes outside the written range
in length terms: the written file's length is the maximum of the old
length and the end of the written range. -/
theorem writeBytes_length (data : List Nat) (pos : Nat) (chunk : List Nat) :
    (writeBytes data pos chunk).length = max data.length (pos + chunk.length) := by
  simp [writeBytes]
  omega

/-- An externally forced status change touches only the status field. -/
theorem applyExt_downloaded (d : Download) (ext : Option Status) :
    (applyExt d ext).downloaded = d.downloaded := by
  cases ext <;> rfl

/-- An externally forced status change touches only the status field. -/
theorem applyExt_size (d : Download) (ext : Option Status) :
    (applyExt d ext).size = d.size := by
  cases ext <;> rfl

/-- The epilogue of `_run` (lines 79-80) never touches the counter. -/
theorem finishTask_downloaded (d : Download) : d.finishTask.downloaded = d.downloaded := by
  unfold Download.finishTask
  split <;> rfl

/-- With no injected fault, the loop never raises. -/
theorem runLoop_fault_none :
    ∀ (sched : List (Option Status × Nat)) (d : Download) (f : File) (body : List Nat),
      (runLoop d f body sched none).2.2 = false := by
  intro sched
  induction sched with
  | nil => intro d f body; rfl
  | cons p rest ih =>
    intro d f body
    obtain ⟨ext, cap⟩ := p
    simp only [runLoop]
    split
    · rw [if_neg (by simp)]
      split
      · rfl
      · simpa using ih _ _ _
    · rfl

/-- Every branch of the task body records the request built at lines 56-57
from the engine state the task started with. -/
theorem runBody_issued (d0 : Download) (disk : List Nat) (env : Env) (lf : Option Nat) :
    (runBody d0 disk env lf).issued = runRequest d0 := by
  unfold runBody
  rcases hr : runLoop (d0.setSize env.contentLength)
      (openSeek (d0.setSize env.contentLength) disk) env.body env.schedule lf with ⟨d2, f2, b⟩
  cases b <;> simp

/-- Every execution of `_run` — faulting or not — issues exactly the
request of lines 56-57, keyed off the counter at task start. -/
theorem runTask_issued (d0 : Download) (disk : List Nat) (env : Env) :
    (runTask d0 disk env).issued = runRequest d0 := by
  unfold runTask
  rcases env.fault with _ | fp
  · exact runBody_issued _ _ _ _
  · cases fp <;> first | rfl | exact runBody_issued _ _ _ _

/-- C1: the claim says resuming preserves the previously written prefix —
that `startTransfer` opens the destination without truncating it.  The
code opens with mode 'wb' (line 65), which truncates the file, then seeks
to `bytesTransferred` in a now-empty file; the write lands past a
zero-filled hole.  Concrete run: a paused engine with 1 byte (value 7)
durably on disk and `bytesTransferred = 1` is resumed against a response
carrying the one remaining byte (value 9); the resulting file is `[0, 9]`
— byte 0 has become 0, no longer the 7 that was downloaded before the
pause. -/
theorem C1_resume_truncates_prefix :
    (runTask (Download.resume ⟨"f", 2, 1, Status.PAUSED⟩) [7] ⟨2, [9], [(none, 1024)], none⟩).disk
        = [0, 9]
    ∧ (runTask (Download.resume ⟨"f", 2, 1, Status.PAUSED⟩) [7] ⟨2, [9], [(none, 1024)], none⟩).disk.take 1
        ≠ [7] := by
  decide

/-- C2 counterexample: the claim says the counter never gets ahead of the
bytes actually written, including on short reads.  Line 77 advances the
counter by the requested `chunk_size`, not by `len(chunk)`: with
`totalSize = 2048` and a stream that delivers only 1 byte to the first
1024-byte read, the final counter is 1024 while the file holds 1 byte. -/
theorem C2_counter_ahead_of_disk :
    (runTask ⟨"u", 2048, 0, Status.DOWNLOADING⟩ [] ⟨2048, [5], [(none, 1)], none⟩).engine.downloaded
        = 1024
    ∧ (runTask ⟨"u", 2048, 0, Status.DOWNLOADING⟩ [] ⟨2048, [5], [(none, 1)], none⟩).disk.length = 1
    ∧ (runTask ⟨"u", 2048, 0, Status.DOWNLOADING⟩ [] ⟨2048, [5], [(none, 1)], none⟩).disk.length
        ≠ ((runTask ⟨"u", 2048, 0, Status.DOWNLOADING⟩ [] ⟨2048, [5], [(none, 1)], none⟩).engine.downloaded).toNat := by
  decide

/-- C4: the claim says `progress` guards `totalSize <= 0` and returns an
explicit unknown sentinel.  Lines 29-31 compute
`int(self._downloaded / self.size * 100)` with no guard: with the unknown
sentinel `size = -1` and 1024 bytes counted it returns the wrong number
-102400, and with `size = 0` (an empty resource's content-length) it
raises ZeroDivisionError (modelled as `none` — an exception, not a
sentinel value). -/
theorem C4_progress_unguarded :
    Download.progress ⟨"u", -1, 1024, Status.DOWNLOADING⟩ = some (-102400)
    ∧ Download.progress ⟨"u", 0, 5, Status.DOWNLOADING⟩ = none := by
  decide

/-- C9: the claim says all five states expose their label as the single
string naming the state, uniformly shaped.  The trailing commas on lines
85-88 make the `.value` of DOWNLOADING, PAUSED, COMPLETE and CANCELLED a
one-element tuple, while ERROR (line 89, no trailing comma) is the plain
string — neither uniform nor (for four of five) a plain string. -/
theorem C9_labels_not_uniform :
    Status.value Status.DOWNLOADING = PyValue.tuple ["Downloading"]
    ∧ Status.value Status.PAUSED = PyValue.tuple ["Paused"]
    ∧ Status.value Status.COMPLETE = PyValue.tuple ["Complete"]
    ∧ Status.value Status.CANCELLED = PyValue.tuple ["Cancelled"]
    ∧ Status.value Status.ERROR = PyValue.str "Error"
    ∧ Status.value Status.DOWNLOADING ≠ PyValue.str "Downloading" := by
  decide

/-- C7: every transfer task — the one started by the constructor and the
one started by each `resume()` — issues its GET with the header
`Range: bytes=<bytesTransferred>-`, where the counter is read at task
start (lines 56-57); `resume` (lines 44-46) does not change the counter,
so the resumed task requests from the current offset, and the constructor
(counter 0) requests `bytes=0-`. -/
theorem C7_range_header_every_task :
    ∀ (d : Download) (disk : List Nat) (env : Env),
      (runTask d disk env).issued
          = { url := d.url, headers := [("Range", "bytes=" ++ toString d.downloaded ++ "-")] }
      ∧ (runTask (Download.resume d) disk env).issued
          = { url := d.url, headers := [("Range", "bytes=" ++ toString d.downloaded ++ "-")] }
      ∧ (runTask (Download.init d.url) disk env).issued
          = { url := d.url, headers := [("Range", "bytes=0-")] } := by
  intro d disk env
  refine ⟨?_, ?_, ?_⟩
  · rw [runTask_issued]; rfl
  · rw [runTask_issued]; rfl
  · rw [runTask_issued]; rfl

/-- C10: `pause()`, `resume()` and `cancel()` (lines 41-49) are
unconditional: for every engine state — any status, including the terminal
COMPLETE, CANCELLED and ERROR — they replace the status with PAUSED,
DOWNLOADING and CANCELLED respectively, touch nothing else, and never
inspect the prior state; the task spawned by `resume` starts from the
current counter, issuing `Range: bytes=<bytesTransferred>-`. -/
theorem C10_operations_unconditional :
    ∀ d : Download,
      Download.pause d = { d with status := Status.PAUSED }
      ∧ Download.cancel d = { d with status := Status.CANCELLED }
      ∧ Download.resume d = { d with status := Status.DOWNLOADING }
      ∧ ∀ (disk : List Nat) (env : Env),
          (runTask (Download.resume d) disk env).issued
            = { url := d.url, headers := [("Range", "bytes=" ++ toString d.downloaded ++ "-")] } := by
  intro d
  refine ⟨rfl, rfl, rfl, ?_⟩
  intro disk env
  rw [runTask_issued]
  rfl

/-- C8 counterexample: the claim says any short read (fewer bytes than
requested, but more than zero) is treated as end-of-stream and breaks the
loop.  Lines 73-74 break only on an empty chunk: with `totalSize = 2048`
and a stream delivering 1 byte to each 1024-byte read, the first (short)
read does not break — a second iteration runs, performs a second write,
and the counter reaches 2048. -/
theorem C8_short_read_does_not_break :
    (runLoop ⟨"u", 2048, 0, Status.DOWNLOADING⟩ ⟨[], 0⟩ [5, 6] [(none, 1), (none, 1)] none).1.downloaded
        = 2048
    ∧ (runLoop ⟨"u", 2048, 0, Status.DOWNLOADING⟩ ⟨[], 0⟩ [5, 6] [(none, 1), (none, 1)] none).2.1.data
        = [5, 6] := by
  decide

/-- C8 amended: each iteration requests exactly
`min(totalSize - bytesTransferred, MAX_CHUNK_SIZE)` bytes with
`MAX_CHUNK_SIZE = 1024` (lines 68-70 compute precisely that minimum), and
an *empty* read is treated as end-of-stream and breaks the loop, while a
short but non-empty read is written and the loop continues, advancing the
counter by the requested size (lines 72-77). -/
theorem C8_chunk_min_and_empty_read_breaks :
    (∀ s d : Int, chunkSize s d = min (s - d) Download.MAX_CHUNK_SIZE)
    ∧ Download.MAX_CHUNK_SIZE = 1024
    ∧ ∀ (d : Download) (f : File) (body : List Nat) (cap : Nat)
        (rest : List (Option Status × Nat)) (fault : Option Nat),
        d.status = Status.DOWNLOADING → fault ≠ some 0 →
        runLoop d f body ((none, cap) :: rest) fault
          = (if body.take (min (chunkSize d.size d.downloaded).toNat cap) = [] then (d, f, false)
             else runLoop { d with downloaded := d.downloaded + chunkSize d.size d.downloaded }
                    (f.write (body.take (min (chunkSize d.size d.downloaded).toNat cap)))
                    (body.drop (body.take (min (chunkSize d.size d.downloaded).toNat cap)).length)
                    rest (fault.map Nat.pred)) := by
  refine ⟨?_, rfl, ?_⟩
  · intro s d
    simp only [chunkSize, Download.MAX_CHUNK_SIZE, Int.min_def]
    split <;> split <;> omega
  · intro d f body cap rest fault h1 h2
    simp only [runLoop, applyExt, h1, if_pos, if_neg h2]

/-- Witness for C8_chunk_min_and_empty_read_breaks: one concrete
iteration with a short read (1 byte delivered to a 1024-byte request)
writes the byte and continues at counter 1024. -/
theorem C8_amended_witness :
    runLoop ⟨"u", 2048, 0, Status.DOWNLOADING⟩ ⟨[], 0⟩ [5] [(none, 1)] none
      = (⟨"u", 2048, 1024, Status.DOWNLOADING⟩, ⟨[5], 1⟩, false) := by
  rw [C8_chunk_min_and_empty_read_breaks.2.2 ⟨"u", 2048, 0, Status.DOWNLOADING⟩ ⟨[], 0⟩ [5] 1 []
      none rfl (by decide)]
  decide

/-- C5: on loop exit with no fault, the task's epilogue (lines 79-80)
turns a status that is still DOWNLOADING (the loop ended because no more
data arrived) into COMPLETE — and into no other terminal state; and when
the loop exited because an external pause/cancel changed the status, the
status is left exactly as the external caller set it. -/
theorem C5_loop_exit_status (d0 : Download) (disk : List Nat) (env : Env)
    (h : env.fault = none) :
    ((runLoop (d0.setSize env.contentLength) (openSeek (d0.setSize env.contentLength) disk)
        env.body env.schedule none).1.status = Status.DOWNLOADING →
      (runTask d0 disk env).engine.status = Status.COMPLETE)
    ∧ ((runLoop (d0.setSize env.contentLength) (openSeek (d0.setSize env.contentLength) disk)
        env.body env.schedule none).1.status ≠ Status.DOWNLOADING →
      (runTask d0 disk env).engine
        = (runLoop (d0.setSize env.contentLength) (openSeek (d0.setSize env.contentLength) disk)
            env.body env.schedule none).1) := by
  have hb := runLoop_fault_none env.schedule (d0.setSize env.contentLength)
    (openSeek (d0.setSize env.contentLength) disk) env.body
  rcases hr : runLoop (d0.setSize env.contentLength)
      (openSeek (d0.setSize env.contentLength) disk) env.body env.schedule none with ⟨d2, f2, b⟩
  rw [hr] at hb
  simp only at hb
  subst hb
  have ht : runTask d0 disk env = runBody d0 disk env none := by
    unfold runTask
    rw [h]
  rw [ht]
  unfold runBody
  rw [hr]
  simp only
  constructor
  · intro hd
    simp [Download.finishTask, hd]
  · intro hd
    simp [Download.finishTask, hd]

/-- Witness for C5_loop_exit_status: a run in which the controller pauses
before the first iteration; the loop exits with status PAUSED and the
task leaves it exactly so. -/
theorem C5_witness :
    (runTask ⟨"u", -1, 0, Status.DOWNLOADING⟩ [] ⟨4, [1, 2, 3, 4], [(some Status.PAUSED, 1024)], none⟩).engine
      = (runLoop ((⟨"u", -1, 0, Status.DOWNLOADING⟩ : Download).setSize 4)
          (openSeek ((⟨"u", -1, 0, Status.DOWNLOADING⟩ : Download).setSize 4) [])
          [1, 2, 3, 4] [(some Status.PAUSED, 1024)] none).1 :=
  (C5_loop_exit_status ⟨"u", -1, 0, Status.DOWNLOADING⟩ []
      ⟨4, [1, 2, 3, 4], [(some Status.PAUSED, 1024)], none⟩ rfl).2 (by decide)

/-- C6: every fault raised anywhere in the transfer task — request
issuance, header parsing, chunk read or file write — is absorbed by the
bare `except:` (lines 81-82) into status ERROR, and nothing propagates to
the creator or controller: `runTask` is a total function into `RunResult`
(no exception type), its `faulted` flag records that an exception was
raised and absorbed, and whenever it is set the final status is ERROR.
In particular a failing initial request on a freshly constructed engine
(the task `__init__` spawns) fails fast into ERROR. -/
theorem C6_faults_absorbed :
    ∀ (d0 : Download) (disk : List Nat) (env : Env),
      ((runTask d0 disk env).faulted = true → (runTask d0 disk env).engine.status = Status.ERROR)
      ∧ (env.fault = some FaultPoint.request →
          (runTask (Download.init d0.url) disk env).engine.status = Status.ERROR) := by
  intro d0 disk env
  constructor
  · intro hfl
    rcases henv : env.fault with _ | fp
    · have ht : runTask d0 disk env = runBody d0 disk env none := by
        unfold runTask
        rw [henv]
      rw [ht] at hfl ⊢
      unfold runBody at hfl ⊢
      rcases hr : runLoop (d0.setSize env.contentLength)
          (openSeek (d0.setSize env.contentLength) disk) env.body env.schedule none with ⟨d2, f2, b⟩
      have hb := runLoop_fault_none env.schedule (d0.setSize env.contentLength)
        (openSeek (d0.setSize env.contentLength) disk) env.body
      rw [hr] at hb
      simp only at hb
      subst hb
      rw [hr] at hfl
      exact Bool.noConfusion hfl
    · cases fp with
      | request =>
        unfold runTask
        rw [henv]
        rfl
      | headerParse =>
        unfold runTask
        rw [henv]
        rfl
      | loop k =>
        have ht : runTask d0 disk env = runBody d0 disk env (some k) := by
          unfold runTask
          rw [henv]
        rw [ht] at hfl ⊢
        unfold runBody at hfl ⊢
        rcases hr : runLoop (d0.setSize env.contentLength)
            (openSeek (d0.setSize env.contentLength) disk) env.body env.schedule (some k) with ⟨d2, f2, b⟩
        cases b
        · rw [hr] at hfl
          exact Bool.noConfusion hfl
        · rfl
  · intro h
    unfold runTask
    rw [h]
    rfl

/-- Witness for C6_faults_absorbed: a freshly constructed engine whose
initial request fails ends in ERROR without raising to the caller. -/
theorem C6_witness :
    (runTask (Download.init "u") [] ⟨5, [1], [(none, 8)], some FaultPoint.request⟩).engine.status
      = Status.ERROR :=
  (C6_faults_absorbed (Download.init "u") [] ⟨5, [1], [(none, 8)], some FaultPoint.request⟩).2 rfl

/-- Loop invariant for the on-disk file: starting from a non-negative
counter, a file whose contents fit under its cursor, and a cursor at most
the counter, the loop preserves all three bounds — in particular the file
never holds more bytes than the counter claims.  Each non-breaking
iteration writes at most `chunk_size` bytes (a short read delivers fewer)
but advances the counter by the full `chunk_size` (line 77). -/
theorem runLoop_preserves_disk_bound :
    ∀ (sched : List (Option Status × Nat)) (d : Download) (f : File) (body : List Nat)
      (fault : Option Nat),
      0 ≤ d.downloaded → f.data.length ≤ f.cursor → f.cursor ≤ d.downloaded.toNat →
      0 ≤ (runLoop d f body sched fault).1.downloaded
      ∧ (runLoop d f body sched fault).2.1.data.length ≤ (runLoop d f body sched fault).2.1.cursor
      ∧ (runLoop d f body sched fault).2.1.cursor ≤ ((runLoop d f body sched fault).1.downloaded).toNat := by
  intro sched
  induction sched with
  | nil => intro d f body fault h1 h2 h3; exact ⟨h1, h2, h3⟩
  | cons p rest ih =>
    intro d f body fault h1 h2 h3
    obtain ⟨ext, cap⟩ := p
    have h1' : 0 ≤ (applyExt d ext).downloaded := by rw [applyExt_downloaded]; exact h1
    have h3' : f.cursor ≤ ((applyExt d ext).downloaded).toNat := by
      rw [applyExt_downloaded]; exact h3
    simp only [runLoop]
    split
    · split
      · exact ⟨h1', h2, h3'⟩
      · split
        · exact ⟨h1', h2, h3'⟩
        · rename_i hchunk
          have hlen : (body.take (min (chunkSize (applyExt d ext).size
              (applyExt d ext).downloaded).toNat cap)).length
              ≤ (chunkSize (applyExt d ext).size (applyExt d ext).downloaded).toNat := by
            rw [List.length_take]
            exact le_trans (Nat.min_le_left _ _) (Nat.min_le_left _ _)
          have hne : (body.take (min (chunkSize (applyExt d ext).size
              (applyExt d ext).downloaded).toNat cap)).length ≠ 0 := by
            intro h0
            exact hchunk (List.length_eq_zero.mp h0)
          have hApos : 0 < chunkSize (applyExt d ext).size (applyExt d ext).downloaded := by
            omega
          refine ih _ _ _ _ ?_ ?_ ?_
          · show 0 ≤ (applyExt d ext).downloaded
                + chunkSize (applyExt d ext).size (applyExt d ext).downloaded
            omega
          · simp only [File.write, writeBytes_length]
            omega
          · show f.cursor
                + (body.take (min (chunkSize (applyExt d ext).size
                    (applyExt d ext).downloaded).toNat cap)).length
              ≤ ((applyExt d ext).downloaded
                + chunkSize (applyExt d ext).size (applyExt d ext).downloaded).toNat
            omega
    · exact ⟨h1', h2, h3'⟩

/-- C2 amended: line 77 advances the counter by the *requested* chunk
size even when the read delivered fewer bytes, so the invariant the code
maintains is one-sided: at every exit of a fault-free task, the number of
bytes in the destination file is at most `bytesTransferred` — the file is
never ahead of the counter, but the counter can run ahead of the file (by
the cumulative read shortfall), and equality holds exactly when every
read returned the full requested amount. -/
theorem C2_amended_file_never_ahead (d0 : Download) (disk : List Nat) (env : Env)
    (hf : env.fault = none) (h0 : 0 ≤ d0.downloaded) :
    (runTask d0 disk env).disk.length ≤ ((runTask d0 disk env).engine.downloaded).toNat := by
  have ht : runTask d0 disk env = runBody d0 disk env none := by
    unfold runTask
    rw [hf]
  rw [ht]
  unfold runBody
  have h0' : 0 ≤ (d0.setSize env.contentLength).downloaded := by
    unfold Download.setSize
    split <;> exact h0
  have hinv := runLoop_preserves_disk_bound env.schedule (d0.setSize env.contentLength)
    (openSeek (d0.setSize env.contentLength) disk) env.body none h0'
    (by simp [openSeek, truncateWb]) (by simp [openSeek])
  rcases hr : runLoop (d0.setSize env.contentLength)
      (openSeek (d0.setSize env.contentLength) disk) env.body env.schedule none with ⟨d2, f2, b⟩
  rw [hr] at hinv
  cases b
  · show f2.data.length ≤ (d2.finishTask.downloaded).toNat
    rw [finishTask_downloaded]
    exact hinv.2.1.trans hinv.2.2
  · show f2.data.length ≤ (d2.error.downloaded).toNat
    exact hinv.2.1.trans hinv.2.2

/-- Witness for C2_amended_file_never_ahead, at the short-read input of
the counterexample: the file holds 1 byte, the counter says 1024. -/
theorem C2_amended_witness :
    (runTask ⟨"u", 2048, 0, Status.DOWNLOADING⟩ [] ⟨2048, [5], [(none, 1)], none⟩).disk.length
      ≤ ((runTask ⟨"u", 2048, 0, Status.DOWNLOADING⟩ [] ⟨2048, [5], [(none, 1)], none⟩).engine.downloaded).toNat :=
  C2_amended_file_never_ahead ⟨"u", 2048, 0, Status.DOWNLOADING⟩ []
    ⟨2048, [5], [(none, 1)], none⟩ rfl (by decide)

/-- When the counter has not passed the size, the requested chunk is
non-negative and never exceeds the remaining bytes (lines 68-70). -/
theorem chunkSize_le (s dl : Int) (h : dl ≤ s) :
    0 ≤ chunkSize s dl ∧ chunkSize s dl ≤ s - dl := by
  simp only [chunkSize, Download.MAX_CHUNK_SIZE]
  by_cases hc : s - dl > (1024 : Int)
  · rw [if_pos hc]
    omega
  · rw [if_neg hc]
    omega

/-- No event ever decreases the counter: the loop body only adds the
(positive, when a chunk arrived) requested chunk size, and every other
event touches only the status or the size. -/
theorem step_downloaded_mono (d : Download) (a : Evt) :
    d.downloaded ≤ (step d a).downloaded := by
  cases a with
  | pause => exact le_rfl
  | resume => exact le_rfl
  | cancel => exact le_rfl
  | fault => exact le_rfl
  | headers cl =>
    show d.downloaded ≤ (d.setSize cl).downloaded
    unfold Download.setSize
    split <;> exact le_rfl
  | finish =>
    show d.downloaded ≤ d.finishTask.downloaded
    rw [finishTask_downloaded]
  | iter cap =>
    simp only [step]
    split
    · split
      · exact le_rfl
      · rename_i hmin
        show d.downloaded ≤ d.downloaded + chunkSize d.size d.downloaded
        have hA : (chunkSize d.size d.downloaded).toNat ≠ 0 := fun h0 => hmin (by
          rw [h0]
          exact Nat.zero_min cap)
        omega
    · exact le_rfl

/-- Every event whose observed content-length is non-negative preserves
the engine invariant. -/
theorem step_preserves_inv (d : Download) (a : Evt)
    (hcl : ∀ cl, a = Evt.headers cl → 0 ≤ cl) (h : EngineInv d) :
    EngineInv (step d a) := by
  obtain ⟨h1, h2, h3⟩ := h
  cases a with
  | pause => exact ⟨h1, h2, h3⟩
  | resume => exact ⟨h1, h2, h3⟩
  | cancel => exact ⟨h1, h2, h3⟩
  | fault => exact ⟨h1, h2, h3⟩
  | finish =>
    show EngineInv d.finishTask
    unfold Download.finishTask
    split
    · exact ⟨h1, h2, h3⟩
    · exact ⟨h1, h2, h3⟩
  | headers cl =>
    have hcl' : 0 ≤ cl := hcl cl rfl
    show EngineInv (d.setSize cl)
    unfold Download.setSize
    split
    · rename_i hsz
      have hd0 : d.downloaded = 0 := h2 hsz
      refine ⟨?_, ?_, ?_⟩
      · show 0 ≤ d.downloaded
        exact h1
      · intro _
        exact hd0
      · intro _
        constructor
        · exact hcl'
        · show d.downloaded ≤ cl
          omega
    · exact ⟨h1, h2, h3⟩
  | iter cap =>
    simp only [step]
    split
    · split
      · exact ⟨h1, h2, h3⟩
      · rename_i hmin
        have hA0 : (chunkSize d.size d.downloaded).toNat ≠ 0 := fun h0 => hmin (by
          rw [h0]
          exact Nat.zero_min cap)
        by_cases hsz : d.size = -1
        · exfalso
          rw [hsz, h2 hsz] at hA0
          exact absurd rfl hA0
        · obtain ⟨hs0, hle⟩ := h3 hsz
          obtain ⟨hA1, hA2⟩ := chunkSize_le d.size d.downloaded hle
          refine ⟨?_, ?_, ?_⟩
          · show 0 ≤ d.downloaded + chunkSize d.size d.downloaded
            omega
          · intro h'
            exact absurd h' hsz
          · intro _
            constructor
            · exact hs0
            · show d.downloaded + chunkSize d.size d.downloaded ≤ d.size
              omega
    · exact ⟨h1, h2, h3⟩

/-- Running a suffix after a prefix is running the concatenation. -/
theorem exec_append (d : Download) (l1 l2 : List Evt) :
    exec d (l1 ++ l2) = exec (exec d l1) l2 := by
  simp [exec, List.foldl_append]

/-- The counter is monotone along any event sequence. -/
theorem exec_downloaded_mono : ∀ (tr : List Evt) (d : Download),
    d.downloaded ≤ (exec d tr).downloaded := by
  intro tr
  induction tr with
  | nil => intro d; exact le_rfl
  | cons a tr ih =>
    intro d
    exact le_trans (step_downloaded_mono d a) (ih (step d a))

/-- Well-formedness splits across concatenation. -/
theorem wfb_append : ∀ (l1 l2 : List Evt),
    wfb (l1 ++ l2) = true → wfb l1 = true ∧ wfb l2 = true := by
  intro l1
  induction l1 with
  | nil => intro l2 h; exact ⟨rfl, h⟩
  | cons a l1 ih =>
    intro l2 h
    cases a with
    | pause => exact ih l2 h
    | resume => exact ih l2 h
    | cancel => exact ih l2 h
    | fault => exact ih l2 h
    | finish => exact ih l2 h
    | iter cap => exact ih l2 h
    | headers cl =>
      have h' : (if 0 ≤ cl then wfb (l1 ++ l2) else false) = true := h
      split at h'
      · rename_i hcl
        obtain ⟨ha, hb⟩ := ih l2 h'
        constructor
        · show (if 0 ≤ cl then wfb l1 else false) = true
          rw [if_pos hcl]
          exact ha
        · exact hb
      · exact Bool.noConfusion h'

/-- The invariant holds after every well-formed event sequence. -/
theorem exec_preserves_inv : ∀ (tr : List Evt) (d : Download),
    EngineInv d → wfb tr = true → EngineInv (exec d tr) := by
  intro tr
  induction tr with
  | nil => intro d h _; exact h
  | cons a tr ih =>
    intro d h hwf
    cases a with
    | pause => exact ih _ (step_preserves_inv d _ (fun c hc => Evt.noConfusion hc) h) hwf
    | resume => exact ih _ (step_preserves_inv d _ (fun c hc => Evt.noConfusion hc) h) hwf
    | cancel => exact ih _ (step_preserves_inv d _ (fun c hc => Evt.noConfusion hc) h) hwf
    | fault => exact ih _ (step_preserves_inv d _ (fun c hc => Evt.noConfusion hc) h) hwf
    | finish => exact ih _ (step_preserves_inv d _ (fun c hc => Evt.noConfusion hc) h) hwf
    | iter cap => exact ih _ (step_preserves_inv d _ (fun c hc => Evt.noConfusion hc) h) hwf
    | headers cl =>
      have h' : (if 0 ≤ cl then wfb tr else false) = true := hwf
      split at h'
      · rename_i hcl
        exact ih _ (step_preserves_inv d _ (fun c hc => by cases hc; exact hcl) h) h'
      · exact Bool.noConfusion h'

/-- C3: for every sequence of pause/resume/cancel calls interleaved with
transfer-loop iterations (and header reads with valid, non-negative
content lengths), starting from a freshly constructed engine, the counter
at any prefix of the trace is non-negative, never exceeds the size once
the size is known (not the -1 sentinel), and never exceeds the counter at
the end of the full trace — bytesTransferred is monotonically
non-decreasing and 0 ≤ bytesTransferred ≤ totalSize once known. -/
theorem C3_counter_monotone_bounded (url : String) (tr pre : List Evt)
    (hwf : wfb tr = true) (hpre : pre <+: tr) :
    0 ≤ (exec (Download.init url) pre).downloaded
    ∧ ((exec (Download.init url) pre).size ≠ -1 →
        (exec (Download.init url) pre).downloaded ≤ (exec (Download.init url) pre).size)
    ∧ (exec (Download.init url) pre).downloaded ≤ (exec (Download.init url) tr).downloaded := by
  obtain ⟨suf, hsuf⟩ := hpre
  subst hsuf
  obtain ⟨h1, h2⟩ := wfb_append pre suf hwf
  have hinv : EngineInv (exec (Download.init url) pre) :=
    exec_preserves_inv pre (Download.init url)
      ⟨le_rfl, fun _ => rfl, fun hne => absurd rfl hne⟩ h1
  refine ⟨hinv.1, fun hne => (hinv.2.2 hne).2, ?_⟩
  rw [exec_append]
  exact exec_downloaded_mono suf _

/-- Witness for C3_counter_monotone_bounded: after the headers report 5
bytes and one iteration runs, the counter is 5 = size; the pause, resume
and further iteration of the full trace leave it at 5. -/
theorem C3_witness :
    0 ≤ (exec (Download.init "u") [Evt.headers 5, Evt.iter 3]).downloaded
    ∧ ((exec (Download.init "u") [Evt.headers 5, Evt.iter 3]).size ≠ -1 →
        (exec (Download.init "u") [Evt.headers 5, Evt.iter 3]).downloaded
          ≤ (exec (Download.init "u") [Evt.headers 5, Evt.iter 3]).size)
    ∧ (exec (Download.init "u") [Evt.headers 5, Evt.iter 3]).downloaded
        ≤ (exec (Download.init "u")
            [Evt.headers 5, Evt.iter 3, Evt.pause, Evt.resume, Evt.iter 99]).downloaded :=
  C3_counter_monotone_bounded "u"
    [Evt.headers 5, Evt.iter 3, Evt.pause, Evt.resume, Evt.iter 99]
    [Evt.headers 5, Evt.iter 3] (by decide)
    ⟨[Evt.pause, Evt.resume, Evt.iter 99], rfl⟩
